import Mathlib

set_option linter.unusedVariables false
set_option linter.unusedTactic false

/-!
# Verification of the Rome API facade (`api-rome.cpp`)

A shallow embedding of the attribute access and update protocol of the
Rusle2 Rome API facade, together with proofs about its documented
behavior.  Each definition transcribes the corresponding function of
`src/RUSLE2/RomeAPI/api-rome.cpp`; engine-side collaborators that are
declared but not implemented in that file (`CEngineBase::FinishUpdates`,
`FindOrCreate`, `UserCmdResizeDim`, `AttrGetStr`, `DoCmdSetStr`,
`CRomeCore::Init`, `CRomeCore::Exit`, `CRomeCore::ParseArgs`) are
modelled from the specification and marked as such in their doc
comments.
-/

namespace Rome

/-! ## Data model -/

/-- Attribute type tags (`ParamType` in the engine): boolean, date,
float, integer, list, pointer, subobject, string. -/
inductive ParamType
  | bol | dte | flt | int | lst | ptr | sub | str
deriving DecidableEq, Repr

/-- A catalog listing (`CListing`): immutable metadata for one attribute
name — declared type, legal object types, dimension/resizability flags,
default size and fill value, allowable units. -/
structure CListing where
  name : String
  paramType : ParamType
  legalObjects : List String
  isDim : Bool
  userResize : Bool
  defSize : Nat
  defValue : String
  units : List String
deriving DecidableEq, Repr

/-- A live attribute instance (`CAttr`) inside a file object: current
root size, flat value store, current active index, dimension sizes and
flags copied from its listing. -/
structure CAttr where
  name : String
  paramType : ParamType
  size : Nat
  values : List String
  curIndex : Int
  dims : List Nat
  isDim : Bool
  userResize : Bool
  units : List String
deriving DecidableEq, Repr

/-- A file object (`CFileObj`): named, typed container of attributes.
`coreValid` models the `&pFile->Core == &App` identity check,
`valid` models `CFileObj::IsValid`, `romeRefs` models `m_nRomeRefs`,
`isEmptyObj` models `CFileObj::IsEmpty`, and `params` models the
`m_params` attribute map. -/
structure CFileObj where
  fileName : String
  objType : String
  coreValid : Bool
  valid : Bool
  romeRefs : Int
  isEmptyObj : Bool
  params : List (String × CAttr)
deriving DecidableEq, Repr

/-- The calculation engine (`CEngineBase`): the pending-update queue
("the stack") of recalculation tasks, and the auto-run flag. -/
structure CEngine where
  queue : List String
  autorun : Bool
deriving DecidableEq, Repr

/-- Compile-time configuration symbols of the facade. -/
structure Cfg where
  useThreadIds : Bool
  useRefCount : Bool
  useZeroAttrSize : Bool
  maxSetStrSize : Int
deriving DecidableEq, Repr

/-- The process-wide session (`CRomeCore` / `App`): lifecycle flags
(`DLLSTATE_CLOSED`, `DLLSTATE_INITROME`), the creating thread id
(`m_nThreadId`), the thread-local error buffer (named string
`"RomeGetLastError"`), the attribute catalog, the open file collection,
and the calculation engine. -/
structure CRomeCore where
  cfg : Cfg
  closedFlag : Bool
  initRome : Bool
  threadId : Nat
  lastError : String
  catalog : List CListing
  files : List CFileObj
  engine : CEngine
  commandLine : String
deriving DecidableEq, Repr

/-! ## Error buffer (`RomeGetLastError` / `RomeSetLastError`) -/

/-- The error-buffer edit performed by `RomeSetLastError`
(api-rome.cpp:1143-1184).  `none` models a NULL `pszInfo` pointer.
A leading `'+'` appends the remainder to the buffer on a new line,
`'-'` prepends it on a new line, `'='` replaces the buffer with the
remainder; any other text replaces the buffer (the alternate prepend
branch at api-rome.cpp:1171-1179 is compiled out by `#if 0`). -/
def setLastErrorText (old : String) (info : Option String) : String :=
  match info with
  | none => ""
  | some s =>
    match s.data with
    | [] => s
    | c :: rest =>
      if c = '+' then
        if old = "" then String.mk rest else old ++ "\n" ++ String.mk rest
      else if c = '-' then
        if old = "" then String.mk rest else String.mk rest ++ "\n" ++ old
      else if c = '=' then String.mk rest
      else s

/-- `RomeSetLastError` (api-rome.cpp:1102-1196).  `pApp = none` models a
NULL app pointer (checks skipped); `pApp = some b` models a non-null
pointer with `b = (pApp == &App)`.  Note the thread check at
api-rome.cpp:1120 is `ASSERT_OR_RETURN_FALSE(!bSameThread)`: it fails
precisely when the caller is on the *same* thread stored by
`RomeInit`. -/
def RomeSetLastError (core : CRomeCore) (curTid : Nat) (pApp : Option Bool)
    (info : Option String) : Bool × CRomeCore :=
  match pApp with
  | some isApp =>
    if !isApp then (false, core)
    else if core.closedFlag then (false, core)
    else if core.cfg.useThreadIds && (core.threadId == curTid) then (false, core)
    else (true, { core with lastError := setLastErrorText core.lastError info })
  | none => (true, { core with lastError := setLastErrorText core.lastError info })

/-- `RomeGetLastError` (api-rome.cpp:1048-1081).  `pApp = none` models a
NULL pointer, which is accepted (`(pApp == NULL) || (pApp == &App)`).
When the thread-id build flag is on, api-rome.cpp:1063 *assigns*
(`BOOL bSameThread = (App.m_nThreadId = nCurThreadId);`), so the check
trips for any nonzero thread id and the constant message is returned. -/
def RomeGetLastError (core : CRomeCore) (curTid : Nat) (pApp : Option Bool) :
    Option String × CRomeCore :=
  if !(pApp.getD true) then (none, core)
  else if core.closedFlag then (none, core)
  else if core.cfg.useThreadIds then
    let core' := { core with threadId := curTid }
    if curTid != 0 then
      (some "RomeGetLastError: Rome API function called on different thread from RomeInit().", core')
    else (some core'.lastError, core')
  else (some core.lastError, core)

/-- The state change performed by the `ASSERT_OR_SETERROR_AND_RETURN_*`
macros: record the message in the thread-local error buffer through the
`RomeSetLastError` editing rules (so `'+'`-prefixed messages append). -/
def setError (core : CRomeCore) (msg : String) : CRomeCore :=
  { core with lastError := setLastErrorText core.lastError (some msg) }

/-! ## Tests for claim C6 -/

/-- A convenient session for exercising the error buffer. -/
def errCore : CRomeCore :=
  { cfg := { useThreadIds := false, useRefCount := false,
             useZeroAttrSize := false, maxSetStrSize := 2000 }
    closedFlag := false, initRome := true, threadId := 1,
    lastError := "", catalog := [], files := [],
    engine := { queue := [], autorun := true }, commandLine := "" }

/-! ## Engine and attribute collaborators

These functions are declared in headers and live outside
`api-rome.cpp`; they are modelled from the specification. -/

/-- Modelled from the spec: `CEngineBase::FinishUpdates()` is not under
src/.  Per §4.2 it drains the calculation engine's pending-update queue
to empty, idempotently, *without* altering the configured auto-run
mode. -/
def FinishUpdates (e : CEngine) : CEngine := { e with queue := [] }

/-- Look up an attribute name in the catalog (`CAttrCatalog::GetListing`). -/
def lookupListing (cat : List CListing) (name : String) : Option CListing :=
  cat.find? (fun l => l.name == name)

/-- Build a fresh attribute instance from its catalog listing
(default dimension sizes and default fill, §4.1 step (d)). -/
def mkAttrFromListing (l : CListing) : CAttr :=
  { name := l.name, paramType := l.paramType, size := l.defSize,
    values := List.replicate l.defSize l.defValue, curIndex := 0,
    dims := [l.defSize], isDim := l.isDim, userResize := l.userResize,
    units := l.units }

/-- Result of attribute resolution. -/
structure FindOut where
  attr : Option CAttr
  file : CFileObj
  eng : CEngine
deriving DecidableEq, Repr

/-- Modelled from the spec: `FindOrCreate(pszAttr, pFile)` is not under
src/ (api-rome.cpp only wraps it).  Per §4.1: look the bare name up in
the attribute catalog (absence is a not-found failure), verify the file
object's type is among the listing's legal types (mismatch is a
wrong-object-type failure), return the live instance from the file's
attribute map if present, otherwise construct one from the listing and
insert it; first creation may schedule dependent recalculation on the
engine (§4.1 side effect), modelled by enqueueing a pending task.
Long remote-prefixed names are not modelled. -/
def FindOrCreate (cat : List CListing) (pszAttr : String) (file : CFileObj)
    (eng : CEngine) : FindOut :=
  match lookupListing cat pszAttr with
  | none => ⟨none, file, eng⟩
  | some l =>
    if l.legalObjects.contains file.objType then
      match file.params.lookup pszAttr with
      | some a => ⟨some a, file, eng⟩
      | none =>
        let a := mkAttrFromListing l
        ⟨some a, { file with params := file.params ++ [(pszAttr, a)] },
         { eng with queue := eng.queue ++ [pszAttr] }⟩
    else ⟨none, file, eng⟩

/-- Result of a one-row resize command. -/
structure CmdOut where
  changed : Bool
  attr : CAttr
  eng : CEngine
deriving DecidableEq, Repr

/-- Modelled from the spec: `UserCmdResizeDim(pAttr, "", nIndex,
bDelete)` is not under src/.  Per §4.4 it deletes (`bDelete`) or
inserts one row at the given index on the dimension, resizing every
attribute sharing the dimension in lockstep, and per §3/§4.4 each
single-row edit performs recalculation scheduling on the engine,
modelled by enqueueing a pending task.  Only the target dimension
attribute is tracked (the claims observe only its size and the command
invocations). -/
def UserCmdResizeDim (a : CAttr) (idx : Int) (bDelete : Bool) (eng : CEngine) :
    CmdOut :=
  let a' :=
    if bDelete then
      { a with size := a.size - 1, values := a.values.eraseIdx idx.toNat }
    else
      { a with size := a.size + 1, values := a.values.insertIdx idx.toNat "" }
  ⟨true, a', { eng with queue := eng.queue ++ [a.name] }⟩

/-- Modelled from the spec: `CDimensions::GetSize(nDim)` is not under
src/; returns the live size of the 0-based dimension (§3: 0–2 dimension
descriptors). -/
def CDimensions_GetSize (a : CAttr) (nDim : Int) : Int :=
  (a.dims.getD nDim.toNat 0 : Int)

/-- Modelled from the spec: `CAttr::IsValidUnits` is not under src/.
Allowable unit names depend on the parameter; the empty string and the
`"#U_TEMPLATE"` token mean "use the template default" (§4.3, §6). -/
def IsValidUnits (a : CAttr) (unit : String) : Bool :=
  unit == "" || unit == "#U_TEMPLATE" || a.units.contains unit

/-- Modelled from the spec: `AttrGetIndex(pAttr, 0)` is not under src/;
returns the attribute's current active index (§4.3). -/
def AttrGetIndex (a : CAttr) : Int := a.curIndex

/-- Modelled from the spec: `AttrGetStr(pAttr, nIndex, nVariant,
pszUnit)` is not under src/.  Per §4.3 it produces the attribute's
value at the flat index formatted as a string in the requested
unit/variant; an out-of-range index is an internal failure that must
not cross the facade boundary (§4.3, §7), modelled as `Except.error`
(an exception caught by the facade's catch-all).  A successful `none`
models a NULL string pointer result. -/
def AttrGetStr (a : CAttr) (nIndex : Int) (nVariant : Int) (pszUnit : String) :
    Except Unit (Option String) :=
  if 0 ≤ nIndex ∧ nIndex < (a.size : Int) then
    .ok (some (a.values.getD nIndex.toNat ""))
  else .error ()

/-- `Int2Str`: decimal formatting of an integer. -/
def Int2Str (n : Int) : String := toString n

/-- The value of casting a 32-bit `int` to a 16-bit signed `RT_SHORT`
and back (truncate to 16 bits and sign-extend), as in the
`nSize == (int)(RT_SHORT)nSize` test at api-rome.cpp:3125-3126. -/
def toShortInt (n : Int) : Int := (n + 32768) % 65536 - 32768

/-- Write an updated attribute instance back into the file's attribute
map (the C++ code mutates the instance in place). -/
def updateParam (f : CFileObj) (name : String) (a : CAttr) : CFileObj :=
  { f with params := f.params.map (fun p => if p.1 = name then (p.1, a) else p) }

/-! ## Observable events

Instrumentation recorded by the embedded facade functions: engine
drains, size/value reads (with the pending queue at the moment of the
read), and row-resize commands. -/

inductive Ev
  | drain
  | readSize (queueAtRead : List String) (n : Int)
  | readValue (queueAtRead : List String)
  | readIndex (queueAtRead : List String)
  | resizeStart (queueAtStart : List String)
  | resizeRow (idx : Int) (del : Bool)
deriving DecidableEq, Repr

/-- Result of a size-returning facade call. -/
structure SizeOut where
  ret : Int
  core : CRomeCore
  file : Option CFileObj
  evs : List Ev
deriving DecidableEq, Repr

/-! ## Size facades -/

/-- The tail of `RomeFileGetAttrSize` after attribute resolution
(api-rome.cpp:3106-3128), taking the resolution result `fo`. -/
def RomeFileGetAttrSizeBody (core : CRomeCore) (file : CFileObj)
    (pszAttr : String) (fo : FindOut) : SizeOut :=
  if core.cfg.useZeroAttrSize && fo.attr.isNone && file.isEmptyObj
      && (lookupListing core.catalog pszAttr).isSome then
    ⟨0, { core with engine := fo.eng }, some fo.file, [Ev.drain]⟩
  else
    match fo.attr with
    | none =>
      ⟨-1, setError { core with engine := fo.eng }
            "+RomeFileGetAttrSize: failed to create attr.", some fo.file, [Ev.drain]⟩
    | some a =>
      let eng2 := FinishUpdates fo.eng
      let nSize : Int := (a.size : Int)
      let evs := [Ev.drain, Ev.drain, Ev.readSize eng2.queue nSize]
      if nSize = toShortInt nSize then
        ⟨nSize, { core with engine := eng2 }, some fo.file, evs⟩
      else
        ⟨-1, setError { core with engine := eng2 }
              "RomeFileGetAttrSize: size is too large to cast to short.", some fo.file, evs⟩

/-- `RomeFileGetAttrSize` (api-rome.cpp:3063-3142).  Note the
`bValidApp`/`bExited` checks at api-rome.cpp:3075/3077 use
`ASSERT_OR_SETERROR_AND_RETURN_NULL` and hence return 0, not -1. -/
def RomeFileGetAttrSize (core : CRomeCore) (curTid : Nat)
    (pFile : Option CFileObj) (pszAttr : String) : SizeOut :=
  match pFile with
  | none => ⟨-1, setError core "RomeFileGetAttrSize: NULL file pointer.", none, []⟩
  | some file =>
    if pszAttr = "" then
      ⟨-1, setError core "RomeFileGetAttrSize: empty attr name.", some file, []⟩
    else if !file.coreValid then
      ⟨0, setError core "RomeFileGetAttrSize: invalid file pointer.", some file, []⟩
    else if core.closedFlag then
      ⟨0, setError core "RomeFileGetAttrSize: RomeExit() has already been called.", some file, []⟩
    else if !file.valid then
      ⟨-1, setError core "RomeFileGetAttrSize: invalid file pointer.", some file, []⟩
    else if core.cfg.useRefCount && file.romeRefs < 1 then
      ⟨-1, setError core "RomeFileGetAttrSize: invalid file reference count.", some file, []⟩
    else if core.cfg.useThreadIds && (core.threadId == curTid) then
      ⟨-1, setError core "RomeFileGetAttrSize: Rome API function called on different thread from RomeInit().", some file, []⟩
    else
      RomeFileGetAttrSizeBody core file pszAttr
        (FindOrCreate core.catalog pszAttr file (FinishUpdates core.engine))

/-- The tail of `RomeFileGetAttrSizeEx` after attribute resolution
(api-rome.cpp:3201-3226), taking the resolution result `fo`. -/
def RomeFileGetAttrSizeExBody (core : CRomeCore) (file : CFileObj)
    (pszAttr : String) (fo : FindOut) : SizeOut :=
  if core.cfg.useZeroAttrSize && fo.attr.isNone && file.isEmptyObj
      && (lookupListing core.catalog pszAttr).isSome then
    ⟨0, { core with engine := fo.eng }, some fo.file, [Ev.drain]⟩
  else
    match fo.attr with
    | none =>
      ⟨-1, setError { core with engine := fo.eng }
            "RomeFileGetAttrSizeEx: failed to create attr.", some fo.file, [Ev.drain]⟩
    | some a =>
      let eng2 := FinishUpdates fo.eng
      let nSize : Int := (a.size : Int)
      ⟨nSize, { core with engine := eng2 }, some fo.file,
       [Ev.drain, Ev.drain, Ev.readSize eng2.queue nSize]⟩

/-- `RomeFileGetAttrSizeEx` (api-rome.cpp:3156-3240): the wide-size
variant; all failure paths return -1 and there is no short-cast
restriction on the returned size. -/
def RomeFileGetAttrSizeEx (core : CRomeCore) (curTid : Nat)
    (pFile : Option CFileObj) (pszAttr : String) : SizeOut :=
  match pFile with
  | none => ⟨-1, setError core "RomeFileGetAttrSizeEx: NULL file pointer.", none, []⟩
  | some file =>
    if pszAttr = "" then
      ⟨-1, setError core "RomeFileGetAttrSizeEx: empty attr name.", some file, []⟩
    else if !file.coreValid then
      ⟨-1, setError core "RomeFileGetAttrSizeEx: invalid file pointer.", some file, []⟩
    else if core.closedFlag then
      ⟨-1, setError core "RomeFileGetAttrSizeEx: RomeExit() has already been called.", some file, []⟩
    else if !file.valid then
      ⟨-1, setError core "RomeFileGetAttrSizeEx: invalid file pointer.", some file, []⟩
    else if core.cfg.useRefCount && file.romeRefs < 1 then
      ⟨-1, setError core "RomeFileGetAttrSizeEx: invalid file reference count.", some file, []⟩
    else if core.cfg.useThreadIds && (core.threadId == curTid) then
      ⟨-1, setError core "RomeFileGetAttrSizeEx: Rome API function called on different thread from RomeInit().", some file, []⟩
    else
      RomeFileGetAttrSizeExBody core file pszAttr
        (FindOrCreate core.catalog pszAttr file (FinishUpdates core.engine))

/-- The tail of `RomeFileGetAttrDimSize` after attribute resolution
(api-rome.cpp:3020-3030), taking the resolution result `fo`. -/
def RomeFileGetAttrDimSizeBody (core : CRomeCore) (nDim : Int)
    (fo : FindOut) : SizeOut :=
  match fo.attr with
  | none =>
    ⟨-1, setError { core with engine := fo.eng }
          "+RomeFileGetAttrDimSize: failed to create attr.", some fo.file, [Ev.drain]⟩
  | some a =>
    let eng2 := FinishUpdates fo.eng
    let nSize := CDimensions_GetSize a nDim
    ⟨nSize, { core with engine := eng2 }, some fo.file,
     [Ev.drain, Ev.drain, Ev.readSize eng2.queue nSize]⟩

/-- `RomeFileGetAttrDimSize` (api-rome.cpp:2977-3044).  The
`bValidApp`/`bExited` checks at api-rome.cpp:2989/2991 use
`ASSERT_OR_SETERROR_AND_RETURN_NULL` and hence return 0. -/
def RomeFileGetAttrDimSize (core : CRomeCore) (curTid : Nat)
    (pFile : Option CFileObj) (pszAttr : String) (nDim : Int) : SizeOut :=
  match pFile with
  | none => ⟨-1, setError core "RomeFileGetAttrDimSize: NULL file pointer.", none, []⟩
  | some file =>
    if pszAttr = "" then
      ⟨-1, setError core "RomeFileGetAttrDimSize: empty attr name.", some file, []⟩
    else if !file.coreValid then
      ⟨0, setError core "RomeFileGetAttrDimSize: invalid file pointer.", some file, []⟩
    else if core.closedFlag then
      ⟨0, setError core "RomeFileGetAttrDimSize: RomeExit() has already been called.", some file, []⟩
    else if !file.valid then
      ⟨-1, setError core "RomeFileGetAttrDimSize: invalid file pointer.", some file, []⟩
    else if core.cfg.useRefCount && file.romeRefs < 1 then
      ⟨-1, setError core "RomeFileGetAttrDimSize: invalid file reference count.", some file, []⟩
    else if core.cfg.useThreadIds && (core.threadId == curTid) then
      ⟨-1, setError core "RomeFileGetAttrDimSize: Rome API function called on different thread from RomeInit().", some file, []⟩
    else
      RomeFileGetAttrDimSizeBody core nDim
        (FindOrCreate core.catalog pszAttr file (FinishUpdates core.engine))

/-! ## Resize facade -/

/-- Result of the one-row-at-a-time resize loop. -/
structure LoopOut where
  attr : CAttr
  eng : CEngine
  evs : List Ev
deriving DecidableEq, Repr

/-- The resize loop of `RomeFileSetAttrSize` (api-rome.cpp:4077-4087):
`nNumRows` iterations of `UserCmdResizeDim` starting at `nIndex`, with
the index decremented after each delete and incremented after each
insert. -/
def resizeLoop (a : CAttr) (eng : CEngine) (n : Nat) (idx : Int)
    (bDelete : Bool) : LoopOut :=
  match n with
  | 0 => ⟨a, eng, []⟩
  | m + 1 =>
    let r := UserCmdResizeDim a idx bDelete eng
    let rest := resizeLoop r.attr r.eng m (if bDelete then idx - 1 else idx + 1) bDelete
    ⟨rest.attr, rest.eng, Ev.resizeRow idx bDelete :: rest.evs⟩

/-- The tail of `RomeFileSetAttrSize` after attribute resolution
(api-rome.cpp:4065-4096), taking the resolution result `fo`. -/
def RomeFileSetAttrSizeBody (core : CRomeCore) (pszAttr : String)
    (nNewSize : Int) (fo : FindOut) : SizeOut :=
  match fo.attr with
  | none =>
    ⟨-1, setError { core with engine := fo.eng }
          "RomeFileSetAttrSize: failed to create attr.", some fo.file, [Ev.drain]⟩
  | some a =>
    if !a.isDim then
      ⟨-1, setError { core with engine := fo.eng }
            "RomeFileSetAttrSize: cannot resize a non-dimension attr.", some fo.file, [Ev.drain]⟩
    else if !a.userResize then
      ⟨-1, setError { core with engine := fo.eng }
            "RomeFileSetAttrSize: the attr cannot be resized.", some fo.file, [Ev.drain]⟩
    else
      let eng2 := FinishUpdates fo.eng
      let nOldSize : Nat := a.size
      let nDeltaSize : Int := nNewSize - (nOldSize : Int)
      let bDelete := nDeltaSize < 0
      let nNumRows : Nat := nDeltaSize.natAbs
      let nIndex : Int := if bDelete then (nOldSize : Int) - 1 else (nOldSize : Int)
      let lo := resizeLoop a eng2 nNumRows nIndex bDelete
      ⟨if (nOldSize : Int) ≠ nNewSize then 1 else 0,
       { core with engine := lo.eng },
       some (updateParam fo.file pszAttr lo.attr),
       [Ev.drain, Ev.drain, Ev.readSize eng2.queue (nOldSize : Int),
        Ev.resizeStart eng2.queue] ++ lo.evs⟩

/-- `RomeFileSetAttrSize` (api-rome.cpp:4017-4110). -/
def RomeFileSetAttrSize (core : CRomeCore) (curTid : Nat)
    (pFile : Option CFileObj) (pszAttr : String) (nNewSize : Int) : SizeOut :=
  match pFile with
  | none => ⟨-1, setError core "RomeFileSetAttrSize: NULL file pointer.", none, []⟩
  | some file =>
    if pszAttr = "" then
      ⟨-1, setError core "RomeFileSetAttrSize: empty attr name.", some file, []⟩
    else if nNewSize < 0 then
      ⟨-1, setError core "RomeFileSetAttrSize: negative size.", some file, []⟩
    else if nNewSize = 0 then
      ⟨-1, setError core "RomeFileSetAttrSize: zero size.", some file, []⟩
    else if !file.coreValid then
      ⟨-1, setError core "RomeFileSetAttrSize: invalid file pointer.", some file, []⟩
    else if core.closedFlag then
      ⟨-1, setError core "RomeFileSetAttrSize: RomeExit() has already been called.", some file, []⟩
    else if !file.valid then
      ⟨-1, setError core "RomeFileSetAttrSize: invalid file pointer.", some file, []⟩
    else if core.cfg.useRefCount && file.romeRefs < 1 then
      ⟨-1, setError core "RomeFileSetAttrSize: invalid file reference count.", some file, []⟩
    else if core.cfg.useThreadIds && (core.threadId == curTid) then
      ⟨-1, setError core "RomeFileSetAttrSize: Rome API function called on different thread from RomeInit().", some file, []⟩
    else
      RomeFileSetAttrSizeBody core pszAttr nNewSize
        (FindOrCreate core.catalog pszAttr file (FinishUpdates core.engine))

/-! ## Value facades -/

/-- Result of a value-returning facade call (`ret = none` models the
NULL failure sentinel). -/
structure ValueOut where
  ret : Option String
  core : CRomeCore
  file : Option CFileObj
  evs : List Ev
deriving DecidableEq, Repr

/-- The message formatted by the catch-all handler of
`RomeFileGetAttrValueAux` (api-rome.cpp:3373; the `File = '0x%08X'`
pointer address is not modelled). -/
def getValueExcMsg (pszAttr : String) (nIndex : Int) : String :=
  "RomeFileGetAttrValue: exception for Attr = '" ++ pszAttr
    ++ "', Index = " ++ Int2Str nIndex ++ "."

/-- The tail of `RomeFileGetAttrValueAux` after attribute resolution
(api-rome.cpp:3309-3367), taking the resolution result `fo`.  The body
runs inside a catch-all: the only internal fault in the model is the
out-of-range index inside `AttrGetStr`, which the handler turns into a
NULL return plus a descriptive error string. -/
def RomeFileGetAttrValueAuxBody (core : CRomeCore) (file : CFileObj)
    (pszAttr : String) (nIndex : Int) (nVariant : Int) (pszUnit : String)
    (fo : FindOut) : ValueOut :=
  match fo.attr with
  | none =>
    match lookupListing core.catalog pszAttr with
    | none =>
      ⟨none, setError { core with engine := fo.eng }
              "RomeFileGetAttrValue: no Rusle2 parameter of that name.", some fo.file, [Ev.drain]⟩
    | some l =>
      if !(l.legalObjects.contains file.objType) then
        ⟨none, setError { core with engine := fo.eng }
                "RomeFileGetAttrValue: Rusle2 parameter asked for in wrong object type.", some fo.file, [Ev.drain]⟩
      else
        ⟨none, setError { core with engine := fo.eng }
                "RomeFileGetAttrValue: failed to create attr.", some fo.file, [Ev.drain]⟩
  | some a =>
    if nIndex = -1 then
      ⟨some (Int2Str (AttrGetIndex a)), { core with engine := fo.eng }, some fo.file,
       [Ev.drain, Ev.readIndex fo.eng.queue]⟩
    else
      let eng2 := FinishUpdates fo.eng
      if !(IsValidUnits a pszUnit) then
        ⟨none, { core with engine := eng2 }, some fo.file, [Ev.drain, Ev.drain]⟩
      else
        let unit2 := if pszUnit = "" then "#U_TEMPLATE" else pszUnit
        match AttrGetStr a nIndex nVariant unit2 with
        | .error _ =>
          ⟨none, setError { core with engine := eng2 } (getValueExcMsg pszAttr nIndex),
           some fo.file, [Ev.drain, Ev.drain, Ev.readValue eng2.queue]⟩
        | .ok v =>
          let pszValue := match v with | none => "NULL" | some s => s
          ⟨some pszValue, { core with engine := eng2 }, some fo.file,
           [Ev.drain, Ev.drain, Ev.readValue eng2.queue]⟩

/-- `RomeFileGetAttrValueAux` (api-rome.cpp:3266-3381). -/
def RomeFileGetAttrValueAux (core : CRomeCore) (curTid : Nat)
    (pFile : Option CFileObj) (pszAttr : String) (nIndex : Int)
    (nVariant : Int) (pszUnit : String) : ValueOut :=
  match pFile with
  | none => ⟨none, setError core "RomeFileGetAttrValue: NULL file pointer.", none, []⟩
  | some file =>
    if pszAttr = "" then
      ⟨none, setError core "RomeFileGetAttrValue: empty attr name.", some file, []⟩
    else if ¬ (nIndex ≥ 0 ∨ nIndex = -1) then
      ⟨none, setError core "RomeFileGetAttrValue: invalid index.", some file, []⟩
    else if !file.coreValid then
      ⟨none, setError core "RomeFileGetAttrValue: invalid file pointer.", some file, []⟩
    else if core.closedFlag then
      ⟨none, setError core "RomeFileGetAttrValue: RomeExit() has already been called.", some file, []⟩
    else if !file.valid then
      ⟨none, setError core "RomeFileGetAttrValue: invalid file pointer.", some file, []⟩
    else if core.cfg.useRefCount && file.romeRefs < 1 then
      ⟨none, setError core "RomeFileGetAttrValue: invalid file reference count.", some file, []⟩
    else if core.cfg.useThreadIds && (core.threadId == curTid) then
      ⟨none, setError core "RomeFileGetAttrValue: Rome API function called on different thread from RomeInit().", some file, []⟩
    else
      RomeFileGetAttrValueAuxBody core file pszAttr nIndex nVariant pszUnit
        (FindOrCreate core.catalog pszAttr file (FinishUpdates core.engine))

/-- ASCII lower-casing of one character. -/
def lowerChar (c : Char) : Char :=
  if 'A' ≤ c ∧ c ≤ 'Z' then Char.ofNat (c.toNat + 32) else c

/-- Case-insensitive string equality (`strieq`). -/
def strieq (a b : String) : Bool := a.data.map lowerChar == b.data.map lowerChar

/-- Modelled from the spec: `DoCmdSetStr(pAttr, pszValue, nIndex, ...)`
is not under src/.  Per §4.3 it applies the value with a tri-state
result — "changed" (1) when the value differed and was applied,
"unchanged" (0) when equal, failure (-1) on validation error (modelled
here only for an out-of-range index; the type-specific parse rules are
exercised by no claim) — and schedules recalculation of dependents on
a change. -/
def DoCmdSetStr (a : CAttr) (v : String) (nIndex : Int) (eng : CEngine) :
    Int × CAttr × CEngine :=
  if 0 ≤ nIndex ∧ nIndex < (a.size : Int) then
    let old := a.values.getD nIndex.toNat ""
    if old == v then (0, a, eng)
    else (1, { a with values := a.values.set nIndex.toNat v },
          { eng with queue := eng.queue ++ [a.name] })
  else (-1, a, eng)

/-- Modelled from the spec: `CDimensions::GetDimPtr(0)` is not under
src/; returns the attribute's governing (root) dimension, tracked here
as the attribute itself. -/
def GetDimPtr0 (a : CAttr) : CAttr := a

/-- The tail of `RomeFileSetAttrValueAux` after attribute resolution
(api-rome.cpp:4233-4284), taking the resolution result `fo`. -/
def RomeFileSetAttrValueAuxBody (core : CRomeCore) (file : CFileObj)
    (pszAttr : String) (value : String) (nIndex : Int) (pszUnit : String)
    (fo : FindOut) : SizeOut :=
  match fo.attr with
  | none =>
    match lookupListing core.catalog pszAttr with
    | none =>
      ⟨-1, setError { core with engine := fo.eng }
            "RomeFileSetAttrValue: no Rusle2 parameter of that name.", some fo.file, [Ev.drain]⟩
    | some l =>
      if !(l.legalObjects.contains file.objType) then
        ⟨-1, setError { core with engine := fo.eng }
              "RomeFileSetAttrValue: Rusle2 parameter asked for in wrong object type.", some fo.file, [Ev.drain]⟩
      else
        ⟨-1, setError { core with engine := fo.eng }
              "RomeFileSetAttrValue: failed to create attr.", some fo.file, [Ev.drain]⟩
  | some a =>
    let eng2 := FinishUpdates fo.eng
    if !(IsValidUnits a pszUnit) then
      ⟨0, { core with engine := eng2 }, some fo.file, [Ev.drain, Ev.drain]⟩
    else
      if strieq value "#INSERT" then
        let r := UserCmdResizeDim (GetDimPtr0 a) nIndex false eng2
        ⟨if r.changed then 1 else 0, { core with engine := r.eng },
         some (updateParam fo.file pszAttr r.attr),
         [Ev.drain, Ev.drain, Ev.resizeRow nIndex false]⟩
      else if strieq value "#DELETE" then
        let r := UserCmdResizeDim (GetDimPtr0 a) nIndex true eng2
        ⟨if r.changed then 1 else 0, { core with engine := r.eng },
         some (updateParam fo.file pszAttr r.attr),
         [Ev.drain, Ev.drain, Ev.resizeRow nIndex true]⟩
      else
        let r := DoCmdSetStr a value nIndex eng2
        ⟨r.1, { core with engine := r.2.2 },
         some (updateParam fo.file pszAttr r.2.1),
         [Ev.drain, Ev.drain]⟩

/-- `RomeFileSetAttrValueAux` (api-rome.cpp:4173-4298).  The
`CUpdateLock` scope around attribute creation (api-rome.cpp:4227) only
suppresses automatic engine runs during creation and is not otherwise
observable here; it is not modelled. -/
def RomeFileSetAttrValueAux (core : CRomeCore) (curTid : Nat)
    (pFile : Option CFileObj) (pszAttr : String) (pszValue : Option String)
    (nIndex : Int) (nVariant : Int) (pszUnit : String) : SizeOut :=
  match pFile with
  | none => ⟨-1, setError core "RomeFileSetAttrValue: NULL file pointer.", none, []⟩
  | some file =>
    if pszAttr = "" then
      ⟨-1, setError core "RomeFileSetAttrValue: empty attr name.", some file, []⟩
    else
    match pszValue with
    | none => ⟨-1, setError core "RomeFileSetAttrValue: NULL value pointer.", some file, []⟩
    | some value =>
      if nIndex < 0 then
        ⟨-1, setError core "RomeFileSetAttrValue: negative index.", some file, []⟩
      else if !(core.cfg.maxSetStrSize ≤ 0 ∨ (value.length : Int) ≤ core.cfg.maxSetStrSize) then
        ⟨-1, setError core "RomeFileSetAttrValue: value string exceeds MAX_SETSTR_SIZE.", some file, []⟩
      else if !file.coreValid then
        ⟨-1, setError core "RomeFileSetAttrValue: invalid file pointer.", some file, []⟩
      else if core.closedFlag then
        ⟨-1, setError core "RomeFileSetAttrValue: RomeExit() has already been called.", some file, []⟩
      else if !file.valid then
        ⟨-1, setError core "RomeFileSetAttrValue: invalid file pointer.", some file, []⟩
      else if core.cfg.useRefCount && file.romeRefs < 1 then
        ⟨-1, setError core "RomeFileSetAttrValue: invalid file reference count.", some file, []⟩
      else if core.cfg.useThreadIds && (core.threadId == curTid) then
        ⟨-1, setError core "RomeFileSetAttrValue: Rome API function called on different thread from RomeInit().", some file, []⟩
      else
        RomeFileSetAttrValueAuxBody core file pszAttr value nIndex pszUnit
          (FindOrCreate core.catalog pszAttr file (FinishUpdates core.engine))

/-! ## Session lifecycle -/

/-- Modelled from the spec: `CRomeCore::ParseArgs` is not under src/.
Per §6 the argument string is a space-separated, quote-aware token
list; quoting is not modelled, and splitting always succeeds. -/
def ParseArgs (args : String) : Option (List String) := some (args.splitOn " ")

/-- Modelled from the spec: `CRomeCore::Init` is not under src/.  It
performs first-time initialization of the engine session and sets the
`DLLSTATE_INITROME` flag (§2, §3), returning the session handle. -/
def CRomeCore_Init (core : CRomeCore) : Bool × CRomeCore :=
  (true, { core with initRome := true })

/-- Modelled from the spec: `CRomeCore::Exit` is not under src/.  It
frees the session and sets the closed state; once closed no further
operations succeed (§3). -/
def CRomeCore_Exit (core : CRomeCore) : Bool × CRomeCore :=
  (true, { core with closedFlag := true })

/-- `RomeInit` (api-rome.cpp:1269-1351).  Returns `true` when a
session pointer (`&App`) is returned, `false` for the NULL failure
sentinel.  `pszArgs = none` models a NULL argument string.  On any call
after the first successful one (the `DLLSTATE_INITROME` check at
api-rome.cpp:1292) the existing instance is returned before `pszArgs`
is ever consulted. -/
def RomeInit (core : CRomeCore) (curTid : Nat) (pszArgs : Option String) :
    Bool × CRomeCore :=
  if core.closedFlag then
    (false, setError core "RomeInit: RomeExit() has already been called.")
  else if core.initRome then (true, core)
  else
    let core1 := { core with commandLine := pszArgs.getD "" }
    match ParseArgs (pszArgs.getD "") with
    | none => (false, setError core1 "-RomeInit: failed to parse command line arguments.")
    | some _ =>
      let core2 := if core1.cfg.useThreadIds then { core1 with threadId := curTid } else core1
      CRomeCore_Init core2

/-- `RomeExit` (api-rome.cpp:1211-1243).  The thread-id comparison at
api-rome.cpp:1227 is a bare `ASSERT` with no early return and is not
modelled. -/
def RomeExit (core : CRomeCore) (curTid : Nat) (pApp : Option Bool) :
    Bool × CRomeCore :=
  match pApp with
  | none => (false, setError core "RomeExit: NULL Rome app pointer.")
  | some isApp =>
    if !isApp then (false, setError core "RomeExit: invalid Rome app pointer.")
    else if core.closedFlag then
      (false, setError core "RomeExit: RomeExit() has already been called.")
    else CRomeCore_Exit core

/-! ## Dependency walk (`RomeFilesGetDependencies`) -/

/-- `ArrayFind`: index of a string in an array, or -1 when absent. -/
def ArrayFind (a : List String) (s : String) : Int :=
  match a.findIdx? (fun x => x == s) with
  | none => -1
  | some i => (i : Int)

/-- `CFileSys::FileExists` over the open-file collection. -/
def FileExists (fs : List CFileObj) (name : String) : Bool :=
  fs.any (fun f => f.fileName == name)

/-- Modelled from the spec: opening a file by full name through the
file system (§6 file access); the magic `#XML:`-style prefixes and the
reference-count side effects of `RomeFilesOpen`/`RomeFileClose` are not
modelled (the walk closes every file it opens). -/
def FilesOpenByName (fs : List CFileObj) (name : String) : Option CFileObj :=
  fs.find? (fun f => f.fileName == name)

/-- The filenames contributed by one attribute of the currently open
file (api-rome.cpp:4671-4711): pointer/subobject attributes only; for a
pointer attribute the stored filename must exist in the database
(api-rome.cpp:4686-4693); `GetPtr(i)` is modelled as resolving the
stored filename to an open file object. -/
def attrDepTargets (fs : List CFileObj) (a : CAttr) : List String :=
  if a.paramType = ParamType.ptr ∨ a.paramType = ParamType.sub then
    (List.range a.size).filterMap (fun i =>
      let fileName := a.values.getD i ""
      if a.paramType = ParamType.ptr ∧ ¬ (FileExists fs fileName) then none
      else
        match FilesOpenByName fs fileName with
        | none => none
        | some tgt => some tgt.fileName)
  else []

/-- Process every attribute of one open file (api-rome.cpp:4668-4711):
each not-yet-collected target is pushed on the head of the work stack
(`stack.AddHead`) and appended to the collected list (`csaDeps.Add`). -/
def depsStep (fs : List CFileObj) (file : CFileObj)
    (stack deps : List String) : List String × List String :=
  file.params.foldl
    (fun sd p =>
      (attrDepTargets fs p.2).foldl
        (fun (sd : List String × List String) name =>
          if ArrayFind sd.2 name = -1 then (name :: sd.1, sd.2 ++ [name]) else sd)
        sd)
    (stack, deps)

/-- Outcome of the work-stack loop (api-rome.cpp:4662-4714). -/
inductive WalkRes
  | done (deps : List String)
  | exc
  | fuelOut
deriving DecidableEq, Repr

/-- The work-stack loop of `RomeFilesGetDependencies`
(api-rome.cpp:4662-4714), with explicit fuel.  A name that fails to
open dereferences a NULL file pointer (api-rome.cpp:4665-4668 performs
no check), which surfaces as an exception to the catch-all (`exc`). -/
def depsWalk (fs : List CFileObj) : Nat → List String → List String → WalkRes
  | 0, stack, deps => if stack.isEmpty then .done deps else .fuelOut
  | fuel + 1, stack, deps =>
    match stack with
    | [] => .done deps
    | top :: rest =>
      match FilesOpenByName fs top with
      | none => .exc
      | some f =>
        let sd := depsStep fs f rest deps
        depsWalk fs fuel sd.1 sd.2

/-- Result of `RomeFilesGetDependencies`.  `depsArray = none` models a
NULL / never-assigned output array. -/
structure DepsOut where
  ret : Bool
  depsSize : Int
  depsArray : Option (List String)
  core : CRomeCore
  evs : List Ev
deriving DecidableEq, Repr

/-- `RomeFilesGetDependencies` (api-rome.cpp:4615-4765).
`pFiles = some (bValidApp, bValidFiles)` models a non-null filesystem
pointer with its two validity checks; `depsSizeIn` is the caller's
value of the by-reference `depsSize` argument (unchanged on paths that
fail before assigning it).  The thread-check block at
api-rome.cpp:4631-4635 references the undeclared variable `pFile` and
compiles only with the flag off; it is not modelled.  `new
char*[depsSize]` with a negative count throws, reaching the catch-all
after `depsSize` was already assigned.  The result is `none` when the
walk exhausts its fuel (the model cannot determine the outcome). -/
def RomeFilesGetDependencies (core : CRomeCore) (pFiles : Option (Bool × Bool))
    (pszFilename : Option String) (depsSizeIn : Int) (fuel : Nat) :
    Option DepsOut :=
  match pFiles with
  | none => some ⟨false, depsSizeIn, none,
      setError core "RomeFilesGetDependecies: NULL file system pointer.", []⟩
  | some (bValidApp, bValidFiles) =>
    match pszFilename with
    | none => some ⟨false, depsSizeIn, none,
        setError core "RomeFilesGetDependecies: NULL filename pointer.", []⟩
    | some name =>
      if !bValidApp then
        some ⟨false, depsSizeIn, none,
          setError core "RomeFilesGetDependecies: invalid file system pointer.", []⟩
      else if core.closedFlag then
        some ⟨false, depsSizeIn, none,
          setError core "RomeFilesGetDependecies: RomeExit() has already been called.", []⟩
      else if !bValidFiles then
        some ⟨false, depsSizeIn, none,
          setError core "RomeFilesGetDependecies: invalid file system pointer.", []⟩
      else
        let eng1 := FinishUpdates core.engine
        let coreD := { core with engine := eng1 }
        match depsWalk core.files fuel [name] [] with
        | .fuelOut => none
        | .exc =>
          some ⟨false, depsSizeIn, none,
            setError coreD ("RomeFilesGetDependecies: exception for File = '" ++ name ++ "'."),
            [Ev.drain]⟩
        | .done deps =>
          let depsSize : Int := (deps.length : Int) - 1
          if depsSize < 0 then
            some ⟨false, depsSize, none,
              setError coreD ("RomeFilesGetDependecies: exception for File = '" ++ name ++ "'."),
              [Ev.drain]⟩
          else
            some ⟨true, depsSize, some (deps.take depsSize.toNat), coreD, [Ev.drain]⟩

/-! ## Shared test fixtures -/

/-- A user-resizable dimension listing legal in `SOIL` objects. -/
def dimListing : CListing :=
  { name := "DIM", paramType := .flt, legalObjects := ["SOIL"], isDim := true,
    userResize := true, defSize := 3, defValue := "0", units := [""] }

/-- The live instance of `dimListing`, default size 3. -/
def dimAttr : CAttr := mkAttrFromListing dimListing

/-- A non-dimension listing legal in `SOIL` objects. -/
def clayListing : CListing :=
  { name := "CLAY", paramType := .flt, legalObjects := ["SOIL"], isDim := false,
    userResize := false, defSize := 1, defValue := "7", units := [""] }

/-- A listing that is absent from `SOIL` objects (legal only in `CLIMATE`). -/
def rainListing : CListing :=
  { name := "RAIN", paramType := .flt, legalObjects := ["CLIMATE"], isDim := false,
    userResize := false, defSize := 1, defValue := "0", units := [""] }

/-- A valid open soil file holding `DIM` and `CLAY`. -/
def soilFile : CFileObj :=
  { fileName := "soils\\s1", objType := "SOIL", coreValid := true, valid := true,
    romeRefs := 1, isEmptyObj := false,
    params := [("DIM", dimAttr), ("CLAY", mkAttrFromListing clayListing)] }

/-- The default build configuration (thread checks off). -/
def baseCfg : Cfg :=
  { useThreadIds := false, useRefCount := false, useZeroAttrSize := false,
    maxSetStrSize := 2000 }

/-- A healthy initialized session with one pending engine task. -/
def baseCore : CRomeCore :=
  { cfg := baseCfg, closedFlag := false, initRome := true, threadId := 1,
    lastError := "", catalog := [dimListing, clayListing, rainListing],
    files := [soilFile],
    engine := { queue := ["pending"], autorun := true }, commandLine := "" }

/-- The argument/session validity preconditions shared by the attribute
facades, in the exact decidable forms the transcribed checks test. -/
abbrev argsOK (core : CRomeCore) (curTid : Nat) (file : CFileObj) : Prop :=
  file.coreValid = true ∧ core.closedFlag = false ∧ file.valid = true ∧
  (core.cfg.useRefCount && decide (file.romeRefs < 1)) = false ∧
  (core.cfg.useThreadIds && (core.threadId == curTid)) = false

/-! ## Claim C1: engine-drain discipline -/

/-- An event is "drain-correct" when any size/value read (and the start
of a resize application) observed an empty pending queue. -/
def evDrained : Ev → Bool
  | Ev.readSize q _ => q.isEmpty
  | Ev.readValue q => q.isEmpty
  | Ev.resizeStart q => q.isEmpty
  | _ => true

/-- All size/value reads in a trace saw a drained engine. -/
def drainedReads (evs : List Ev) : Bool := evs.all evDrained

/-! ## Claim C2: resize algorithm -/

/-- The row-operation sequence described by the claim (spec §4.4): for
delta < 0, |delta| single-row deletes at indices old−1, old−2, …; for
delta > 0, delta single-row inserts at indices old, old+1, …; none when
delta = 0. -/
def specRowOps (oldSize : Nat) (newSize : Int) : List Ev :=
  if newSize < (oldSize : Int) then
    (List.range ((oldSize : Int) - newSize).toNat).map
      (fun (i : Nat) => Ev.resizeRow ((oldSize : Int) - 1 - (i : Int)) true)
  else
    (List.range (newSize - (oldSize : Int)).toNat).map
      (fun (i : Nat) => Ev.resizeRow ((oldSize : Int) + (i : Int)) false)

/-- The resize-command invocations recorded in a trace. -/
def rowEvents (evs : List Ev) : List Ev :=
  evs.filter (fun e => match e with | Ev.resizeRow _ _ => true | _ => false)

/-- A non-dimension listing for a very wide attribute. -/
def bigListing : CListing :=
  { name := "BIG", paramType := .flt, legalObjects := ["SOIL"], isDim := false,
    userResize := false, defSize := 1, defValue := "0", units := [""] }

/-- A live attribute of size 40000 (larger than a signed short). -/
def bigAttr : CAttr :=
  { name := "BIG", paramType := .flt, size := 40000, values := [],
    curIndex := 0, dims := [40000], isDim := false, userResize := false,
    units := [""] }

/-- A valid soil file holding `BIG`. -/
def bigFile : CFileObj :=
  { fileName := "soils\\big", objType := "SOIL", coreValid := true,
    valid := true, romeRefs := 1, isEmptyObj := false,
    params := [("BIG", bigAttr)] }

/-- A healthy session whose catalog lists `BIG`. -/
def bigCore : CRomeCore :=
  { cfg := baseCfg, closedFlag := false, initRome := true, threadId := 1,
    lastError := "", catalog := [bigListing], files := [bigFile],
    engine := { queue := [], autorun := true }, commandLine := "" }

/-! ## Claim C7: session lifecycle -/

/-- A session on which `RomeExit` has already been called. -/
def closedCore : CRomeCore := { baseCore with closedFlag := true }

/-! ## Claim C8: thread affinity (the check is inverted in the code) -/

/-- A session built with the thread-id checks enabled; `RomeInit` ran
on thread 7. -/
def tidCore : CRomeCore :=
  { baseCore with cfg := { baseCfg with useThreadIds := true }, threadId := 7 }

/-- A climate file with no dependencies of its own. -/
def climFile : CFileObj :=
  { fileName := "climates\\c1", objType := "CLIMATE", coreValid := true,
    valid := true, romeRefs := 1, isEmptyObj := false, params := [] }

/-- A pointer attribute referring to `climates\c1`. -/
def profAttr : CAttr :=
  { name := "CLIMATE_PTR", paramType := .ptr, size := 1,
    values := ["climates\\c1"], curIndex := 0, dims := [1], isDim := false,
    userResize := false, units := [] }

/-- A profile file whose only dependency is `climates\c1`. -/
def profFile : CFileObj :=
  { fileName := "profiles\\p1", objType := "PROFILE", coreValid := true,
    valid := true, romeRefs := 1, isEmptyObj := false,
    params := [("CLIMATE_PTR", profAttr)] }

/-- A session whose open-file collection holds the profile and the
climate. -/
def depsCore : CRomeCore :=
  { cfg := baseCfg, closedFlag := false, initRome := true, threadId := 1,
    lastError := "", catalog := [], files := [profFile, climFile],
    engine := { queue := [], autorun := true }, commandLine := "" }

/-! ## Theorems -/

/-- C6. Error-buffer editing: for every prior buffer contents,
`RomeSetLastError` with text starting with `'+'` appends the remainder
on a new line (or just sets it when the buffer is empty), `'-'`
prepends it on a new line, `'='` replaces the buffer with the
remainder, and unprefixed text replaces the buffer; the chain
`"a"`, `"+b"`, `"-c"` leaves `"c\na\nb"` in the buffer read by
`RomeGetLastError`, and `"=d"` then yields `"d"`. -/
theorem C6_error_buffer_editing :
    (∀ old s : String,
      setLastErrorText old (some ("+" ++ s)) =
        if old = "" then s else old ++ "\n" ++ s) ∧
    (∀ old s : String,
      setLastErrorText old (some ("-" ++ s)) =
        if old = "" then s else s ++ "\n" ++ old) ∧
    (∀ old s : String, setLastErrorText old (some ("=" ++ s)) = s) ∧
    (∀ old s : String,
      s.data.head? ≠ some '+' → s.data.head? ≠ some '-' →
      s.data.head? ≠ some '=' →
      setLastErrorText old (some s) = s) ∧
    (let c1 := (RomeSetLastError errCore 1 none (some "a")).2
     let c2 := (RomeSetLastError c1 1 none (some "+b")).2
     let c3 := (RomeSetLastError c2 1 none (some "-c")).2
     (RomeGetLastError c3 1 none).1 = some "c\na\nb" ∧
     (RomeSetLastError c3 1 none (some "=d")).2.lastError = "d") := by
  refine ⟨?_, ?_, ?_, ?_, ?_⟩
  · intro old s
    obtain ⟨d⟩ := s
    show setLastErrorText old (some ⟨'+' :: d⟩) = _
    unfold setLastErrorText
    simp only [Char.reduceEq, reduceIte]
  · intro old s
    obtain ⟨d⟩ := s
    show setLastErrorText old (some ⟨'-' :: d⟩) = _
    unfold setLastErrorText
    simp only [Char.reduceEq, reduceIte]
  · intro old s
    obtain ⟨d⟩ := s
    show setLastErrorText old (some ⟨'=' :: d⟩) = _
    unfold setLastErrorText
    simp only [Char.reduceEq, reduceIte]
  · intro old s h1 h2 h3
    obtain ⟨d⟩ := s
    cases d with
    | nil => rfl
    | cons c rest =>
      simp only [String.data, List.head?_cons] at h1 h2 h3
      show setLastErrorText old (some ⟨c :: rest⟩) = _
      simp only [setLastErrorText]
      rw [if_neg (by simpa using h1), if_neg (by simpa using h2),
          if_neg (by simpa using h3)]
  · decide

/-- Witness for C6: the unprefixed case evaluated at a concrete input. -/
theorem C6_error_buffer_editing_witness :
    setLastErrorText "old" (some "xyz") = "xyz" :=
  C6_error_buffer_editing.2.2.2.1 "old" "xyz"
    (by decide) (by decide) (by decide)

/-! ## Resize-loop lemmas -/

theorem resizeLoop_evs (n : Nat) :
    ∀ (a : CAttr) (eng : CEngine) (idx : Int) (b : Bool),
    (resizeLoop a eng n idx b).evs =
      (List.range n).map
        (fun (i : Nat) => Ev.resizeRow (if b then idx - (i : Int) else idx + (i : Int)) b) := by
  induction n with
  | zero => intro a eng idx b; rfl
  | succ m ih =>
    intro a eng idx b
    simp only [resizeLoop, ih, List.range_succ_eq_map, List.map_cons, List.map_map,
      List.cons.injEq]
    constructor
    · cases b <;> simp
    · refine List.map_congr_left ?_
      intro i _
      cases b <;> simp only [Function.comp, if_true, if_false, Bool.false_eq_true,
        ite_true, ite_false, Ev.resizeRow.injEq, and_true] <;> push_cast <;> ring

theorem resizeLoop_autorun (n : Nat) :
    ∀ (a : CAttr) (eng : CEngine) (idx : Int) (b : Bool),
    (resizeLoop a eng n idx b).eng.autorun = eng.autorun := by
  induction n with
  | zero => intro a eng idx b; rfl
  | succ m ih =>
    intro a eng idx b
    simp only [resizeLoop, ih, UserCmdResizeDim]

theorem FindOrCreate_autorun (cat : List CListing) (n : String) (file : CFileObj)
    (eng : CEngine) : (FindOrCreate cat n file eng).eng.autorun = eng.autorun := by
  unfold FindOrCreate
  rcases lookupListing cat n with _ | l
  · rfl
  · simp only
    split
    · rcases file.params.lookup n with _ | a <;> rfl
    · rfl

theorem resizeLoop_evs_drained (n : Nat) (a : CAttr) (eng : CEngine) (idx : Int)
    (b : Bool) : (resizeLoop a eng n idx b).evs.all evDrained = true := by
  simp only [resizeLoop_evs, List.all_eq_true]
  intro i hi
  simp only [List.mem_map] at hi
  obtain ⟨j, -, rfl⟩ := hi
  rfl

theorem getAttrSizeBody_drained (core : CRomeCore) (file : CFileObj)
    (pszAttr : String) (fo : FindOut) :
    drainedReads (RomeFileGetAttrSizeBody core file pszAttr fo).evs = true ∧
    (RomeFileGetAttrSizeBody core file pszAttr fo).core.engine.autorun =
      fo.eng.autorun := by
  unfold RomeFileGetAttrSizeBody
  repeat' split
  all_goals dsimp only
  all_goals try split_ifs
  all_goals repeat' split
  all_goals simp [drainedReads, evDrained, FinishUpdates, setError]

theorem getAttrSizeExBody_drained (core : CRomeCore) (file : CFileObj)
    (pszAttr : String) (fo : FindOut) :
    drainedReads (RomeFileGetAttrSizeExBody core file pszAttr fo).evs = true ∧
    (RomeFileGetAttrSizeExBody core file pszAttr fo).core.engine.autorun =
      fo.eng.autorun := by
  unfold RomeFileGetAttrSizeExBody
  repeat' split
  all_goals dsimp only
  all_goals try split_ifs
  all_goals repeat' split
  all_goals simp [drainedReads, evDrained, FinishUpdates, setError]

theorem getAttrDimSizeBody_drained (core : CRomeCore) (nDim : Int)
    (fo : FindOut) :
    drainedReads (RomeFileGetAttrDimSizeBody core nDim fo).evs = true ∧
    (RomeFileGetAttrDimSizeBody core nDim fo).core.engine.autorun =
      fo.eng.autorun := by
  unfold RomeFileGetAttrDimSizeBody
  repeat' split
  all_goals dsimp only
  all_goals try split_ifs
  all_goals repeat' split
  all_goals simp [drainedReads, evDrained, FinishUpdates, setError]

theorem getAttrValueAuxBody_drained (core : CRomeCore) (file : CFileObj)
    (pszAttr : String) (nIndex nVariant : Int) (pszUnit : String)
    (fo : FindOut) :
    drainedReads (RomeFileGetAttrValueAuxBody core file pszAttr nIndex nVariant pszUnit fo).evs = true ∧
    (RomeFileGetAttrValueAuxBody core file pszAttr nIndex nVariant pszUnit fo).core.engine.autorun =
      fo.eng.autorun := by
  unfold RomeFileGetAttrValueAuxBody
  repeat' split
  all_goals dsimp only
  all_goals try split_ifs
  all_goals repeat' split
  all_goals simp [drainedReads, evDrained, FinishUpdates, setError]

theorem setAttrSizeBody_drained (core : CRomeCore) (pszAttr : String)
    (nNewSize : Int) (fo : FindOut) :
    drainedReads (RomeFileSetAttrSizeBody core pszAttr nNewSize fo).evs = true ∧
    (RomeFileSetAttrSizeBody core pszAttr nNewSize fo).core.engine.autorun =
      fo.eng.autorun := by
  unfold RomeFileSetAttrSizeBody
  repeat' split
  all_goals try split_ifs
  all_goals
    simp [drainedReads, evDrained, FinishUpdates, setError, resizeLoop_autorun,
      resizeLoop_evs_drained]

/-- C1 (amended). Every facade operation that returns an attribute size
(`RomeFileGetAttrSize`, `RomeFileGetAttrSizeEx`,
`RomeFileGetAttrDimSize`) or a value string
(`RomeFileGetAttrValueAux`) drains the calculation engine's
pending-update queue to empty immediately before reading the size or
value, and `RomeFileSetAttrSize` drains it immediately before reading
the old size and applying the resize (but not after the resize rows
are applied); in all cases the drain leaves the configured auto-run
mode unchanged. -/
theorem C1_drain_discipline :
    (∀ (core : CRomeCore) (curTid : Nat) (pFile : Option CFileObj) (pszAttr : String),
      drainedReads (RomeFileGetAttrSize core curTid pFile pszAttr).evs = true ∧
      (RomeFileGetAttrSize core curTid pFile pszAttr).core.engine.autorun =
        core.engine.autorun) ∧
    (∀ (core : CRomeCore) (curTid : Nat) (pFile : Option CFileObj) (pszAttr : String),
      drainedReads (RomeFileGetAttrSizeEx core curTid pFile pszAttr).evs = true ∧
      (RomeFileGetAttrSizeEx core curTid pFile pszAttr).core.engine.autorun =
        core.engine.autorun) ∧
    (∀ (core : CRomeCore) (curTid : Nat) (pFile : Option CFileObj) (pszAttr : String)
        (nDim : Int),
      drainedReads (RomeFileGetAttrDimSize core curTid pFile pszAttr nDim).evs = true ∧
      (RomeFileGetAttrDimSize core curTid pFile pszAttr nDim).core.engine.autorun =
        core.engine.autorun) ∧
    (∀ (core : CRomeCore) (curTid : Nat) (pFile : Option CFileObj) (pszAttr : String)
        (nIndex nVariant : Int) (pszUnit : String),
      drainedReads (RomeFileGetAttrValueAux core curTid pFile pszAttr nIndex nVariant pszUnit).evs = true ∧
      (RomeFileGetAttrValueAux core curTid pFile pszAttr nIndex nVariant pszUnit).core.engine.autorun =
        core.engine.autorun) ∧
    (∀ (core : CRomeCore) (curTid : Nat) (pFile : Option CFileObj) (pszAttr : String)
        (nNewSize : Int),
      drainedReads (RomeFileSetAttrSize core curTid pFile pszAttr nNewSize).evs = true ∧
      (RomeFileSetAttrSize core curTid pFile pszAttr nNewSize).core.engine.autorun =
        core.engine.autorun) := by
  refine ⟨?_, ?_, ?_, ?_, ?_⟩
  · intro core curTid pFile pszAttr
    cases pFile with
    | none => simp [RomeFileGetAttrSize, drainedReads, setError]
    | some file =>
      unfold RomeFileGetAttrSize
      repeat' split
      all_goals
        first
        | (refine ⟨(getAttrSizeBody_drained _ _ _ _).1, ?_⟩
           rw [(getAttrSizeBody_drained _ _ _ _).2, FindOrCreate_autorun]
           try rfl)
        | simp [drainedReads, evDrained, setError]
  · intro core curTid pFile pszAttr
    cases pFile with
    | none => simp [RomeFileGetAttrSizeEx, drainedReads, setError]
    | some file =>
      unfold RomeFileGetAttrSizeEx
      repeat' split
      all_goals
        first
        | (refine ⟨(getAttrSizeExBody_drained _ _ _ _).1, ?_⟩
           rw [(getAttrSizeExBody_drained _ _ _ _).2, FindOrCreate_autorun]
           try rfl)
        | simp [drainedReads, evDrained, setError]
  · intro core curTid pFile pszAttr nDim
    cases pFile with
    | none => simp [RomeFileGetAttrDimSize, drainedReads, setError]
    | some file =>
      unfold RomeFileGetAttrDimSize
      repeat' split
      all_goals
        first
        | (refine ⟨(getAttrDimSizeBody_drained _ _ _).1, ?_⟩
           rw [(getAttrDimSizeBody_drained _ _ _).2, FindOrCreate_autorun]
           try rfl)
        | simp [drainedReads, evDrained, setError]
  · intro core curTid pFile pszAttr nIndex nVariant pszUnit
    cases pFile with
    | none => simp [RomeFileGetAttrValueAux, drainedReads, setError]
    | some file =>
      unfold RomeFileGetAttrValueAux
      repeat' split
      all_goals
        first
        | (refine ⟨(getAttrValueAuxBody_drained _ _ _ _ _ _ _).1, ?_⟩
           rw [(getAttrValueAuxBody_drained _ _ _ _ _ _ _).2, FindOrCreate_autorun]
           try rfl)
        | simp [drainedReads, evDrained, setError]
  · intro core curTid pFile pszAttr nNewSize
    cases pFile with
    | none => simp [RomeFileSetAttrSize, drainedReads, setError]
    | some file =>
      unfold RomeFileSetAttrSize
      repeat' split
      all_goals
        first
        | (refine ⟨(setAttrSizeBody_drained _ _ _ _).1, ?_⟩
           rw [(setAttrSizeBody_drained _ _ _ _).2, FindOrCreate_autorun]
           try rfl)
        | simp [drainedReads, evDrained, setError]

/-- C1 (counterexample to the claim as stated): `RomeFileSetAttrSize`
does *not* drain the pending-update queue immediately after applying
the resize — growing `DIM` from 3 to 5 rows leaves the two
recalculation tasks scheduled by the row inserts pending when the call
returns. -/
theorem C1_no_drain_after_resize :
    (RomeFileSetAttrSize baseCore 2 (some soilFile) "DIM" 5).core.engine.queue ≠ [] := by
  decide

/-! ## Check-reduction lemmas

When the transcribed argument/session checks all pass, each facade call
reduces to its post-resolution body applied to the resolution result. -/

theorem RomeFileGetAttrSize_checks (core : CRomeCore) (curTid : Nat)
    (file : CFileObj) (pszAttr : String)
    (hname : pszAttr ≠ "") (hok : argsOK core curTid file) :
    RomeFileGetAttrSize core curTid (some file) pszAttr =
      RomeFileGetAttrSizeBody core file pszAttr
        (FindOrCreate core.catalog pszAttr file (FinishUpdates core.engine)) := by
  obtain ⟨h1, h2, h3, h4, h5⟩ := hok
  unfold RomeFileGetAttrSize
  dsimp only
  rw [if_neg hname]
  simp [h1, h2, h3, h4, h5]

theorem RomeFileGetAttrSizeEx_checks (core : CRomeCore) (curTid : Nat)
    (file : CFileObj) (pszAttr : String)
    (hname : pszAttr ≠ "") (hok : argsOK core curTid file) :
    RomeFileGetAttrSizeEx core curTid (some file) pszAttr =
      RomeFileGetAttrSizeExBody core file pszAttr
        (FindOrCreate core.catalog pszAttr file (FinishUpdates core.engine)) := by
  obtain ⟨h1, h2, h3, h4, h5⟩ := hok
  unfold RomeFileGetAttrSizeEx
  dsimp only
  rw [if_neg hname]
  simp [h1, h2, h3, h4, h5]

theorem RomeFileSetAttrSize_checks (core : CRomeCore) (curTid : Nat)
    (file : CFileObj) (pszAttr : String) (nNewSize : Int)
    (hname : pszAttr ≠ "") (hpos : 0 < nNewSize)
    (hok : argsOK core curTid file) :
    RomeFileSetAttrSize core curTid (some file) pszAttr nNewSize =
      RomeFileSetAttrSizeBody core pszAttr nNewSize
        (FindOrCreate core.catalog pszAttr file (FinishUpdates core.engine)) := by
  obtain ⟨h1, h2, h3, h4, h5⟩ := hok
  unfold RomeFileSetAttrSize
  dsimp only
  rw [if_neg hname, if_neg (by omega : ¬ nNewSize < 0),
    if_neg (by omega : ¬ nNewSize = 0)]
  simp [h1, h2, h3, h4, h5]

theorem RomeFileGetAttrValueAux_checks (core : CRomeCore) (curTid : Nat)
    (file : CFileObj) (pszAttr : String) (nIndex nVariant : Int)
    (pszUnit : String)
    (hname : pszAttr ≠ "") (hidx : nIndex ≥ 0 ∨ nIndex = -1)
    (hok : argsOK core curTid file) :
    RomeFileGetAttrValueAux core curTid (some file) pszAttr nIndex nVariant pszUnit =
      RomeFileGetAttrValueAuxBody core file pszAttr nIndex nVariant pszUnit
        (FindOrCreate core.catalog pszAttr file (FinishUpdates core.engine)) := by
  obtain ⟨h1, h2, h3, h4, h5⟩ := hok
  unfold RomeFileGetAttrValueAux
  dsimp only
  rw [if_neg hname, if_neg (not_not_intro hidx)]
  simp [h1, h2, h3, h4, h5]

theorem RomeFileSetAttrValueAux_checks (core : CRomeCore) (curTid : Nat)
    (file : CFileObj) (pszAttr : String) (value : String)
    (nIndex nVariant : Int) (pszUnit : String)
    (hname : pszAttr ≠ "") (hidx : 0 ≤ nIndex)
    (hlen : core.cfg.maxSetStrSize ≤ 0 ∨ ((value.length : Int) ≤ core.cfg.maxSetStrSize))
    (hok : argsOK core curTid file) :
    RomeFileSetAttrValueAux core curTid (some file) pszAttr (some value) nIndex nVariant pszUnit =
      RomeFileSetAttrValueAuxBody core file pszAttr value nIndex pszUnit
        (FindOrCreate core.catalog pszAttr file (FinishUpdates core.engine)) := by
  obtain ⟨h1, h2, h3, h4, h5⟩ := hok
  unfold RomeFileSetAttrValueAux
  dsimp only
  rw [if_neg hname]
  rw [if_neg (by omega : ¬ nIndex < 0), if_neg (by simp [hlen])]
  simp [h1, h2, h3, h4, h5]

/-- The last-error buffer after recording an unprefixed message is that
message verbatim. -/
theorem setError_lastError (core : CRomeCore) (s : String)
    (h1 : s.data.head? ≠ some '+') (h2 : s.data.head? ≠ some '-')
    (h3 : s.data.head? ≠ some '=') :
    (setError core s).lastError = s := by
  show setLastErrorText core.lastError (some s) = s
  obtain ⟨d⟩ := s
  cases d with
  | nil => rfl
  | cons c rest =>
    simp only [String.data, List.head?_cons] at h1 h2 h3
    show setLastErrorText core.lastError (some ⟨c :: rest⟩) = _
    simp only [setLastErrorText]
    rw [if_neg (by simpa using h1), if_neg (by simpa using h2),
        if_neg (by simpa using h3)]

theorem filter_rowPred_map_resizeRow (k : Nat) (f : Nat → Int) (b : Bool) :
    List.filter (fun e => match e with | Ev.resizeRow _ _ => true | _ => false)
      ((List.range k).map (fun i => Ev.resizeRow (f i) b)) =
      (List.range k).map (fun i => Ev.resizeRow (f i) b) := by
  rw [List.filter_eq_self.mpr]
  intro x hx
  simp only [List.mem_map] at hx
  obtain ⟨j, -, rfl⟩ := hx
  rfl

/-- C2. Resize algorithm: a `RomeFileSetAttrSize` call on a resolved,
user-resizable dimension attribute of current size `old` performs,
through the resize-command path, exactly |new − old| single-row deletes
starting at index old−1 and decrementing when new < old, exactly
new − old single-row inserts starting at index old and incrementing
when new > old, and no row operation when new = old. -/
theorem C2_resize_algorithm (core : CRomeCore) (curTid : Nat)
    (file : CFileObj) (pszAttr : String) (nNewSize : Int)
    (a : CAttr) (f1 : CFileObj) (e1 : CEngine)
    (hname : pszAttr ≠ "") (hpos : 0 < nNewSize)
    (hok : argsOK core curTid file)
    (hfo : FindOrCreate core.catalog pszAttr file (FinishUpdates core.engine) =
      ⟨some a, f1, e1⟩)
    (hdim : a.isDim = true) (hrsz : a.userResize = true) :
    rowEvents (RomeFileSetAttrSize core curTid (some file) pszAttr nNewSize).evs =
      specRowOps a.size nNewSize := by
  rw [RomeFileSetAttrSize_checks core curTid file pszAttr nNewSize hname hpos hok, hfo]
  unfold RomeFileSetAttrSizeBody
  simp only [hdim, hrsz, Bool.not_true, Bool.false_eq_true, if_false]
  try dsimp only
  simp only [rowEvents, List.filter_append, resizeLoop_evs]
  by_cases hlt : nNewSize < (a.size : Int)
  · have hd : nNewSize - (a.size : Int) < 0 := by omega
    have hnn : (nNewSize - (a.size : Int)).natAbs = ((a.size : Int) - nNewSize).toNat := by
      omega
    simp [specRowOps, if_pos hlt, hd, hnn, filter_rowPred_map_resizeRow]
  · have hd : ¬ (nNewSize - (a.size : Int) < 0) := by omega
    have hnn : (nNewSize - (a.size : Int)).natAbs = (nNewSize - (a.size : Int)).toNat := by
      omega
    simp [specRowOps, if_neg hlt, hd, hnn, filter_rowPred_map_resizeRow]

/-- Witness for C2: growing `DIM` (size 3) to 5 performs inserts at
indices 3 and 4. -/
theorem C2_resize_algorithm_witness :
    rowEvents (RomeFileSetAttrSize baseCore 2 (some soilFile) "DIM" 5).evs =
      specRowOps dimAttr.size 5 :=
  C2_resize_algorithm baseCore 2 soilFile "DIM" 5 dimAttr soilFile
    ⟨[], true⟩ (by decide) (by decide) (by decide) (by decide) (by decide)
    (by decide)

/-! ## Claim C3: resize return contract -/

/-- C3. Resize return contract: with valid arguments,
`RomeFileSetAttrSize` returns 1 ("changed") iff the old size differs
from the requested new size and 0 ("unchanged") iff they are equal; it
returns -1 ("failure") for every requested size ≤ 0, for a resolved
attribute that is not a dimension, and for a dimension not marked
user-resizable. -/
theorem C3_resize_return_contract (core : CRomeCore) (curTid : Nat)
    (file : CFileObj) (pszAttr : String) (nNewSize : Int)
    (hname : pszAttr ≠ "") (hok : argsOK core curTid file) :
    (∀ (a : CAttr) (f1 : CFileObj) (e1 : CEngine), 0 < nNewSize →
      FindOrCreate core.catalog pszAttr file (FinishUpdates core.engine) =
        ⟨some a, f1, e1⟩ →
      a.isDim = true → a.userResize = true →
      (((RomeFileSetAttrSize core curTid (some file) pszAttr nNewSize).ret = 1 ↔
          (a.size : Int) ≠ nNewSize) ∧
       ((RomeFileSetAttrSize core curTid (some file) pszAttr nNewSize).ret = 0 ↔
          (a.size : Int) = nNewSize))) ∧
    (nNewSize ≤ 0 →
      (RomeFileSetAttrSize core curTid (some file) pszAttr nNewSize).ret = -1) ∧
    (∀ (a : CAttr) (f1 : CFileObj) (e1 : CEngine), 0 < nNewSize →
      FindOrCreate core.catalog pszAttr file (FinishUpdates core.engine) =
        ⟨some a, f1, e1⟩ →
      a.isDim = false →
      (RomeFileSetAttrSize core curTid (some file) pszAttr nNewSize).ret = -1) ∧
    (∀ (a : CAttr) (f1 : CFileObj) (e1 : CEngine), 0 < nNewSize →
      FindOrCreate core.catalog pszAttr file (FinishUpdates core.engine) =
        ⟨some a, f1, e1⟩ →
      a.isDim = true → a.userResize = false →
      (RomeFileSetAttrSize core curTid (some file) pszAttr nNewSize).ret = -1) := by
  refine ⟨?_, ?_, ?_, ?_⟩
  · intro a f1 e1 hpos hfo hdim hrsz
    rw [RomeFileSetAttrSize_checks core curTid file pszAttr nNewSize hname hpos hok, hfo]
    unfold RomeFileSetAttrSizeBody
    dsimp only
    simp only [hdim, hrsz, Bool.not_true, Bool.false_eq_true, if_false]
    by_cases he : (a.size : Int) = nNewSize
    · simp [he]
    · simp [he]
  · intro hle
    unfold RomeFileSetAttrSize
    dsimp only
    rw [if_neg hname]
    by_cases hn : nNewSize < 0
    · simp [hn]
    · have h0 : nNewSize = 0 := by omega
      simp [hn, h0]
  · intro a f1 e1 hpos hfo hdim
    rw [RomeFileSetAttrSize_checks core curTid file pszAttr nNewSize hname hpos hok, hfo]
    unfold RomeFileSetAttrSizeBody
    dsimp only
    simp [hdim]
  · intro a f1 e1 hpos hfo hdim hrsz
    rw [RomeFileSetAttrSize_checks core curTid file pszAttr nNewSize hname hpos hok, hfo]
    unfold RomeFileSetAttrSizeBody
    dsimp only
    simp [hdim, hrsz]

/-- Witness for C3: growing `DIM` from 3 to 5 reports "changed",
re-requesting size 3 reports "unchanged", requesting size 0 fails, and
resizing the non-dimension `CLAY` fails. -/
theorem C3_resize_return_contract_witness :
    (RomeFileSetAttrSize baseCore 2 (some soilFile) "DIM" 5).ret = 1 ∧
    (RomeFileSetAttrSize baseCore 2 (some soilFile) "DIM" 3).ret = 0 ∧
    (RomeFileSetAttrSize baseCore 2 (some soilFile) "DIM" 0).ret = -1 ∧
    (RomeFileSetAttrSize baseCore 2 (some soilFile) "CLAY" 5).ret = -1 := by
  refine ⟨?_, ?_, ?_, ?_⟩
  · exact (((C3_resize_return_contract baseCore 2 soilFile "DIM" 5 (by decide)
      (by decide)).1 dimAttr soilFile ⟨[], true⟩ (by decide) (by decide)
      (by decide) (by decide)).1).mpr (by decide)
  · exact (((C3_resize_return_contract baseCore 2 soilFile "DIM" 3 (by decide)
      (by decide)).1 dimAttr soilFile ⟨[], true⟩ (by decide) (by decide)
      (by decide) (by decide)).2).mpr (by decide)
  · exact (C3_resize_return_contract baseCore 2 soilFile "DIM" 0 (by decide)
      (by decide)).2.1 (by decide)
  · exact (C3_resize_return_contract baseCore 2 soilFile "CLAY" 5 (by decide)
      (by decide)).2.2.1 (mkAttrFromListing clayListing) soilFile ⟨[], true⟩
      (by decide) (by decide) (by decide)

/-! ## Claim C10: implicit short-size limit -/

/-- C10. For a resolved attribute whose drained size fits in a signed
16-bit integer, `RomeFileGetAttrSize` and `RomeFileGetAttrSizeEx`
return the same size; when it exceeds 32767, `RomeFileGetAttrSize`
returns -1 and sets an error string while `RomeFileGetAttrSizeEx`
returns the full size. -/
theorem C10_short_size_limit (core : CRomeCore) (curTid : Nat)
    (file : CFileObj) (pszAttr : String) (a : CAttr) (f1 : CFileObj)
    (e1 : CEngine)
    (hname : pszAttr ≠ "") (hok : argsOK core curTid file)
    (hfo : FindOrCreate core.catalog pszAttr file (FinishUpdates core.engine) =
      ⟨some a, f1, e1⟩) :
    (a.size ≤ 32767 →
      (RomeFileGetAttrSize core curTid (some file) pszAttr).ret = (a.size : Int) ∧
      (RomeFileGetAttrSizeEx core curTid (some file) pszAttr).ret = (a.size : Int)) ∧
    (32767 < a.size →
      (RomeFileGetAttrSize core curTid (some file) pszAttr).ret = -1 ∧
      (RomeFileGetAttrSize core curTid (some file) pszAttr).core.lastError =
        "RomeFileGetAttrSize: size is too large to cast to short." ∧
      (RomeFileGetAttrSizeEx core curTid (some file) pszAttr).ret = (a.size : Int)) := by
  constructor
  · intro hle
    have hsh : (a.size : Int) = toShortInt (a.size : Int) := by
      unfold toShortInt; omega
    constructor
    · rw [RomeFileGetAttrSize_checks core curTid file pszAttr hname hok, hfo]
      unfold RomeFileGetAttrSizeBody
      dsimp only
      simp [if_pos hsh]
    · rw [RomeFileGetAttrSizeEx_checks core curTid file pszAttr hname hok, hfo]
      unfold RomeFileGetAttrSizeExBody
      dsimp only
      simp
  · intro hgt
    have hsh : ¬ ((a.size : Int) = toShortInt (a.size : Int)) := by
      unfold toShortInt; omega
    refine ⟨?_, ?_, ?_⟩
    · rw [RomeFileGetAttrSize_checks core curTid file pszAttr hname hok, hfo]
      unfold RomeFileGetAttrSizeBody
      dsimp only
      simp [if_neg hsh]
    · rw [RomeFileGetAttrSize_checks core curTid file pszAttr hname hok, hfo]
      unfold RomeFileGetAttrSizeBody
      dsimp only
      simp only [Option.isNone_some, Bool.and_false, Bool.false_and,
        Bool.false_eq_true, if_false, if_neg hsh]
      exact setError_lastError _ _ (by decide) (by decide) (by decide)
    · rw [RomeFileGetAttrSizeEx_checks core curTid file pszAttr hname hok, hfo]
      unfold RomeFileGetAttrSizeExBody
      dsimp only
      simp

/-- Witness for C10: `DIM` (size 3) is reported identically by both
size functions; an attribute of size 40000 overflows the short variant
but not the wide one. -/
theorem C10_short_size_limit_witness :
    (RomeFileGetAttrSize baseCore 2 (some soilFile) "DIM").ret = (3 : Int) ∧
    (RomeFileGetAttrSizeEx baseCore 2 (some soilFile) "DIM").ret = (3 : Int) ∧
    (RomeFileGetAttrSize bigCore 2 (some bigFile) "BIG").ret = -1 ∧
    (RomeFileGetAttrSize bigCore 2 (some bigFile) "BIG").core.lastError =
      "RomeFileGetAttrSize: size is too large to cast to short." ∧
    (RomeFileGetAttrSizeEx bigCore 2 (some bigFile) "BIG").ret = (40000 : Int) := by
  have h1 := C10_short_size_limit baseCore 2 soilFile "DIM" dimAttr soilFile
    ⟨[], true⟩ (by decide) (by decide) (by decide)
  have h2 := C10_short_size_limit bigCore 2 bigFile "BIG" bigAttr bigFile
    ⟨[], true⟩ (by decide) (by decide) (by decide)
  obtain ⟨ha, hb⟩ := h1.1 (by decide)
  obtain ⟨hc, hd, he⟩ := h2.2 (by decide)
  exact ⟨ha, hb, hc, hd, he⟩

/-! ## Claim C4: get-value index contract -/

theorem getValueExcMsg_head (p : String) (n : Int) :
    (getValueExcMsg p n).data.head? = some 'R' := rfl

/-- C4. Get-value index contract: an index that is neither ≥ 0 nor
exactly −1 yields the NULL failure sentinel with an error string and no
exception crossing the boundary; index −1 returns the attribute's
current active index formatted as a string; an out-of-range index ≥ 0
also yields the NULL sentinel (via the caught internal fault) with an
error string rather than an exception. -/
theorem C4_get_value_index_contract (core : CRomeCore) (curTid : Nat)
    (file : CFileObj) (pszAttr : String) (nVariant : Int) (pszUnit : String)
    (hname : pszAttr ≠ "") (hok : argsOK core curTid file) :
    (∀ nIndex : Int, nIndex < -1 →
      (RomeFileGetAttrValueAux core curTid (some file) pszAttr nIndex nVariant pszUnit).ret = none ∧
      (RomeFileGetAttrValueAux core curTid (some file) pszAttr nIndex nVariant pszUnit).core.lastError =
        "RomeFileGetAttrValue: invalid index.") ∧
    (∀ (a : CAttr) (f1 : CFileObj) (e1 : CEngine),
      FindOrCreate core.catalog pszAttr file (FinishUpdates core.engine) =
        ⟨some a, f1, e1⟩ →
      (RomeFileGetAttrValueAux core curTid (some file) pszAttr (-1) nVariant pszUnit).ret =
        some (Int2Str (AttrGetIndex a))) ∧
    (∀ (nIndex : Int) (a : CAttr) (f1 : CFileObj) (e1 : CEngine),
      FindOrCreate core.catalog pszAttr file (FinishUpdates core.engine) =
        ⟨some a, f1, e1⟩ →
      IsValidUnits a pszUnit = true →
      0 ≤ nIndex → (a.size : Int) ≤ nIndex →
      (RomeFileGetAttrValueAux core curTid (some file) pszAttr nIndex nVariant pszUnit).ret = none ∧
      (RomeFileGetAttrValueAux core curTid (some file) pszAttr nIndex nVariant pszUnit).core.lastError =
        getValueExcMsg pszAttr nIndex) := by
  refine ⟨?_, ?_, ?_⟩
  · intro nIndex hlt
    unfold RomeFileGetAttrValueAux
    dsimp only
    rw [if_neg hname, if_pos (by omega : ¬ (nIndex ≥ 0 ∨ nIndex = -1))]
    exact ⟨rfl, setError_lastError _ _ (by decide) (by decide) (by decide)⟩
  · intro a f1 e1 hfo
    rw [RomeFileGetAttrValueAux_checks core curTid file pszAttr (-1) nVariant
      pszUnit hname (Or.inr rfl) hok, hfo]
    unfold RomeFileGetAttrValueAuxBody
    dsimp only
    simp
  · intro nIndex a f1 e1 hfo hunit h0 hrange
    rw [RomeFileGetAttrValueAux_checks core curTid file pszAttr nIndex nVariant
      pszUnit hname (Or.inl h0) hok, hfo]
    unfold RomeFileGetAttrValueAuxBody
    dsimp only
    rw [if_neg (by omega : ¬ nIndex = -1)]
    simp only [hunit, Bool.not_true, Bool.false_eq_true, if_false]
    have hgs : ∀ u : String, AttrGetStr a nIndex nVariant u = .error () := by
      intro u
      unfold AttrGetStr
      rw [if_neg (by omega : ¬ (0 ≤ nIndex ∧ nIndex < (a.size : Int)))]
    rw [hgs]
    refine ⟨rfl, ?_⟩
    refine setError_lastError _ _ ?_ ?_ ?_ <;> rw [getValueExcMsg_head] <;> decide

/-- Witness for C4: on `DIM` (size 3, current index 0), index −2 fails
with the invalid-index error, index −1 returns "0", and index 7 fails
with the caught-exception error. -/
theorem C4_get_value_index_contract_witness :
    (RomeFileGetAttrValueAux baseCore 2 (some soilFile) "DIM" (-2) (-2) "").ret = none ∧
    (RomeFileGetAttrValueAux baseCore 2 (some soilFile) "DIM" (-2) (-2) "").core.lastError =
      "RomeFileGetAttrValue: invalid index." ∧
    (RomeFileGetAttrValueAux baseCore 2 (some soilFile) "DIM" (-1) (-2) "").ret = some "0" ∧
    (RomeFileGetAttrValueAux baseCore 2 (some soilFile) "DIM" 7 (-2) "").ret = none ∧
    (RomeFileGetAttrValueAux baseCore 2 (some soilFile) "DIM" 7 (-2) "").core.lastError =
      getValueExcMsg "DIM" 7 := by
  have h := C4_get_value_index_contract baseCore 2 soilFile "DIM" (-2) ""
    (by decide) (by decide)
  obtain ⟨ha, hb⟩ := h.1 (-2) (by decide)
  have hc := h.2.1 dimAttr soilFile ⟨[], true⟩ (by decide)
  obtain ⟨hd, he⟩ := h.2.2 7 dimAttr soilFile ⟨[], true⟩ (by decide) (by decide)
    (by decide) (by decide)
  exact ⟨ha, hb, hc, hd, he⟩

/-! ## Claim C5: catalog gating -/

/-- C5. Catalog gating: when attribute resolution fails, the value-get
and value-set facades return their respective failure sentinels (NULL
for get, -1 for set) with distinguishable error text — a not-found
error when the name is absent from the attribute catalog, and a
wrong-object-type error when the name is cataloged but the file's
object type is not among the listing's legal object types. -/
theorem C5_catalog_gating (core : CRomeCore) (curTid : Nat)
    (file : CFileObj) (pszAttr : String) (value : String)
    (nIndex nVariant : Int) (pszUnit : String)
    (hname : pszAttr ≠ "") (hok : argsOK core curTid file)
    (hidx : 0 ≤ nIndex)
    (hlen : core.cfg.maxSetStrSize ≤ 0 ∨
      ((value.length : Int) ≤ core.cfg.maxSetStrSize)) :
    (lookupListing core.catalog pszAttr = none →
      (RomeFileGetAttrValueAux core curTid (some file) pszAttr nIndex nVariant pszUnit).ret = none ∧
      (RomeFileGetAttrValueAux core curTid (some file) pszAttr nIndex nVariant pszUnit).core.lastError =
        "RomeFileGetAttrValue: no Rusle2 parameter of that name." ∧
      (RomeFileSetAttrValueAux core curTid (some file) pszAttr (some value) nIndex nVariant pszUnit).ret = -1 ∧
      (RomeFileSetAttrValueAux core curTid (some file) pszAttr (some value) nIndex nVariant pszUnit).core.lastError =
        "RomeFileSetAttrValue: no Rusle2 parameter of that name.") ∧
    (∀ l : CListing, lookupListing core.catalog pszAttr = some l →
      l.legalObjects.contains file.objType = false →
      (RomeFileGetAttrValueAux core curTid (some file) pszAttr nIndex nVariant pszUnit).ret = none ∧
      (RomeFileGetAttrValueAux core curTid (some file) pszAttr nIndex nVariant pszUnit).core.lastError =
        "RomeFileGetAttrValue: Rusle2 parameter asked for in wrong object type." ∧
      (RomeFileSetAttrValueAux core curTid (some file) pszAttr (some value) nIndex nVariant pszUnit).ret = -1 ∧
      (RomeFileSetAttrValueAux core curTid (some file) pszAttr (some value) nIndex nVariant pszUnit).core.lastError =
        "RomeFileSetAttrValue: Rusle2 parameter asked for in wrong object type.") := by
  constructor
  · intro hlook
    have hfo : FindOrCreate core.catalog pszAttr file (FinishUpdates core.engine) =
        ⟨none, file, FinishUpdates core.engine⟩ := by
      unfold FindOrCreate
      rw [hlook]
    refine ⟨?_, ?_, ?_, ?_⟩
    · rw [RomeFileGetAttrValueAux_checks core curTid file pszAttr nIndex nVariant
        pszUnit hname (Or.inl hidx) hok, hfo]
      unfold RomeFileGetAttrValueAuxBody
      dsimp only
      rw [hlook]
    · rw [RomeFileGetAttrValueAux_checks core curTid file pszAttr nIndex nVariant
        pszUnit hname (Or.inl hidx) hok, hfo]
      unfold RomeFileGetAttrValueAuxBody
      dsimp only
      rw [hlook]
      exact setError_lastError _ _ (by decide) (by decide) (by decide)
    · rw [RomeFileSetAttrValueAux_checks core curTid file pszAttr value nIndex
        nVariant pszUnit hname hidx hlen hok, hfo]
      unfold RomeFileSetAttrValueAuxBody
      dsimp only
      rw [hlook]
    · rw [RomeFileSetAttrValueAux_checks core curTid file pszAttr value nIndex
        nVariant pszUnit hname hidx hlen hok, hfo]
      unfold RomeFileSetAttrValueAuxBody
      dsimp only
      rw [hlook]
      exact setError_lastError _ _ (by decide) (by decide) (by decide)
  · intro l hlook hc
    have hfo : FindOrCreate core.catalog pszAttr file (FinishUpdates core.engine) =
        ⟨none, file, FinishUpdates core.engine⟩ := by
      unfold FindOrCreate
      rw [hlook]
      dsimp only
      rw [if_neg (by rw [hc]; exact Bool.false_ne_true)]
    refine ⟨?_, ?_, ?_, ?_⟩
    · rw [RomeFileGetAttrValueAux_checks core curTid file pszAttr nIndex nVariant
        pszUnit hname (Or.inl hidx) hok, hfo]
      unfold RomeFileGetAttrValueAuxBody
      dsimp only
      rw [hlook]
      dsimp only
      rw [if_pos (by rw [hc]; rfl)]
    · rw [RomeFileGetAttrValueAux_checks core curTid file pszAttr nIndex nVariant
        pszUnit hname (Or.inl hidx) hok, hfo]
      unfold RomeFileGetAttrValueAuxBody
      dsimp only
      rw [hlook]
      dsimp only
      rw [if_pos (by rw [hc]; rfl)]
      exact setError_lastError _ _ (by decide) (by decide) (by decide)
    · rw [RomeFileSetAttrValueAux_checks core curTid file pszAttr value nIndex
        nVariant pszUnit hname hidx hlen hok, hfo]
      unfold RomeFileSetAttrValueAuxBody
      dsimp only
      rw [hlook]
      dsimp only
      rw [if_pos (by rw [hc]; rfl)]
    · rw [RomeFileSetAttrValueAux_checks core curTid file pszAttr value nIndex
        nVariant pszUnit hname hidx hlen hok, hfo]
      unfold RomeFileSetAttrValueAuxBody
      dsimp only
      rw [hlook]
      dsimp only
      rw [if_pos (by rw [hc]; rfl)]
      exact setError_lastError _ _ (by decide) (by decide) (by decide)

/-- Witness for C5: `NOPE` is absent from the catalog; `RAIN` is
cataloged for `CLIMATE` objects only, so asking for it in the soil file
fails with the wrong-object-type error. -/
theorem C5_catalog_gating_witness :
    (RomeFileGetAttrValueAux baseCore 2 (some soilFile) "NOPE" 0 (-2) "").ret = none ∧
    (RomeFileGetAttrValueAux baseCore 2 (some soilFile) "NOPE" 0 (-2) "").core.lastError =
      "RomeFileGetAttrValue: no Rusle2 parameter of that name." ∧
    (RomeFileSetAttrValueAux baseCore 2 (some soilFile) "NOPE" (some "1") 0 (-2) "").ret = -1 ∧
    (RomeFileGetAttrValueAux baseCore 2 (some soilFile) "RAIN" 0 (-2) "").core.lastError =
      "RomeFileGetAttrValue: Rusle2 parameter asked for in wrong object type." ∧
    (RomeFileSetAttrValueAux baseCore 2 (some soilFile) "RAIN" (some "1") 0 (-2) "").core.lastError =
      "RomeFileSetAttrValue: Rusle2 parameter asked for in wrong object type." := by
  have h1 := C5_catalog_gating baseCore 2 soilFile "NOPE" "1" 0 (-2) ""
    (by decide) (by decide) (by decide) (by decide)
  have h2 := C5_catalog_gating baseCore 2 soilFile "RAIN" "1" 0 (-2) ""
    (by decide) (by decide) (by decide) (by decide)
  obtain ⟨ha, hb, hc, -⟩ := h1.1 (by decide)
  obtain ⟨-, hd, -, he⟩ := h2.2 rainListing (by decide) (by decide)
  exact ⟨ha, hb, hc, hd, he⟩

/-- C7. Session lifecycle: a second `RomeInit` while the session is
open and initialized returns the existing session instance unchanged
and ignores its `args` argument; once `RomeExit` has set the closed
state, every subsequent `RomeInit` fails with the NULL sentinel. -/
theorem C7_session_lifecycle (core : CRomeCore) (curTid curTid2 : Nat)
    (args args2 : Option String) :
    (core.closedFlag = true → (RomeInit core curTid args).1 = false) ∧
    (core.closedFlag = false → core.initRome = true →
      RomeInit core curTid args = (true, core) ∧
      RomeInit core curTid args = RomeInit core curTid args2) ∧
    (core.closedFlag = false →
      (RomeExit core curTid (some true)).1 = true ∧
      ((RomeExit core curTid (some true)).2).closedFlag = true ∧
      (RomeInit ((RomeExit core curTid (some true)).2) curTid2 args).1 = false) := by
  refine ⟨?_, ?_, ?_⟩
  · intro hc
    unfold RomeInit
    simp [hc]
  · intro hc hi
    unfold RomeInit
    simp [hc, hi]
  · intro hc
    refine ⟨?_, ?_, ?_⟩
    · unfold RomeExit CRomeCore_Exit
      simp [hc]
    · unfold RomeExit CRomeCore_Exit
      simp [hc]
    · unfold RomeExit CRomeCore_Exit RomeInit
      simp [hc]

/-- Witness for C7: a closed session rejects `RomeInit`; the open
initialized session returns itself for any argument string; exiting
then re-initializing fails. -/
theorem C7_session_lifecycle_witness :
    (RomeInit closedCore 1 (some "app")).1 = false ∧
    RomeInit baseCore 1 (some "app /UnitSystem=US") = (true, baseCore) ∧
    RomeInit baseCore 1 (some "app /UnitSystem=US") = RomeInit baseCore 1 none ∧
    (RomeExit baseCore 1 (some true)).1 = true ∧
    (RomeInit ((RomeExit baseCore 1 (some true)).2) 2 (some "app")).1 = false := by
  have h1 := (C7_session_lifecycle closedCore 1 1 (some "app") none).1 (by decide)
  have h2 := (C7_session_lifecycle baseCore 1 2 (some "app /UnitSystem=US") none).2.1
    (by decide) (by decide)
  have h3 := (C7_session_lifecycle baseCore 1 2 (some "app") none).2.2 (by decide)
  exact ⟨h1, h2.1, h2.2, h3.1, h3.2.2⟩

/-- C8. The compiled thread-affinity check is inverted: with
`USE_ROMEAPI_THREADIdS` enabled, a `RomeFileSetAttrValueAux` call from
the *same* thread that performed `RomeInit` (thread 7) fails the
precondition with the "called on different thread" error, while a call
from a *different* thread (thread 8) passes the check and performs the
set.  This matches `ASSERT_OR_SETERROR_AND_RETURN_FAILURE(!bSameThread,
...)` at api-rome.cpp:4198-4202 and contradicts both the error text and
the specification. -/
theorem C8_thread_affinity_check_inverted :
    (RomeFileSetAttrValueAux tidCore 7 (some soilFile) "DIM" (some "1") 0 (-2) "").ret = -1 ∧
    (RomeFileSetAttrValueAux tidCore 7 (some soilFile) "DIM" (some "1") 0 (-2) "").core.lastError =
      "RomeFileSetAttrValue: Rome API function called on different thread from RomeInit()." ∧
    (RomeFileSetAttrValueAux tidCore 8 (some soilFile) "DIM" (some "1") 0 (-2) "").ret = 1 := by
  decide

/-! ## Claim C9: dependency walk result -/

/-- C9. `RomeFilesGetDependencies`, on every run that completes without
an internal exception (the walk terminates and the allocation count is
non-negative), returns `true` unconditionally, sets `depsSize` to one
less than the number of dependency filenames it collected, and fills
exactly `depsSize` entries of `depsArray`. -/
theorem C9_dependency_walk (core : CRomeCore) (name : String) (dsIn : Int)
    (fuel : Nat) (deps : List String)
    (hclosed : core.closedFlag = false)
    (hwalk : depsWalk core.files fuel [name] [] = .done deps)
    (hlen : 1 ≤ deps.length) :
    RomeFilesGetDependencies core (some (true, true)) (some name) dsIn fuel =
      some ⟨true, (deps.length : Int) - 1, some (deps.take (deps.length - 1)),
            { core with engine := FinishUpdates core.engine }, [Ev.drain]⟩ ∧
    (deps.take (deps.length - 1)).length = deps.length - 1 := by
  constructor
  · unfold RomeFilesGetDependencies
    dsimp only
    rw [hclosed]
    try dsimp only
    rw [hwalk]
    try dsimp only
    rw [if_neg (by omega : ¬ ((deps.length : Int) - 1 < 0))]
    have ht : ((deps.length : Int) - 1).toNat = deps.length - 1 := by omega
    rw [ht]
    simp
  · simp only [List.length_take]
    omega

/-- Witness for C9: walking `profiles\p1` collects the single
dependency `climates\c1`, yet the reported size is 0 and the allocated
array is empty. -/
theorem C9_dependency_walk_witness :
    RomeFilesGetDependencies depsCore (some (true, true)) (some "profiles\\p1") 99 3 =
      some ⟨true, 0, some [], { depsCore with engine := FinishUpdates depsCore.engine },
            [Ev.drain]⟩ ∧
    ([] : List String).length = 0 := by
  have h := C9_dependency_walk depsCore "profiles\\p1" 99 3 ["climates\\c1"]
    (by decide) (by decide) (by decide)
  exact ⟨h.1, rfl⟩

end Rome
